import Mathlib

/-!
Verification of the Tarot-Flow backend's payment-verification and
entitlement-granting subsystem, as a shallow embedding of the TypeScript
source (`src/services/baseService.ts`, `src/services/golemDbService.ts`,
`src/controllers/purchaseController.ts`) into Lean.

Conventions of the embedding:
* Decimal USD/ETH amounts (the source passes decimal strings through
  `ethers.formatUnits` / `parseFloat`) are modelled as exact rationals;
  the converted amount `formatUnits(v, d)` is `mkRat v (10 ^ d)`.
* JavaScript `Date` values are modelled as a civil calendar date
  (year, month, day, with real month lengths and leap years) plus a
  time-of-day component; `Date.prototype.setDate` is modelled with its
  overflow normalisation rolling into later months.  The model has no
  DST, matching calendar-day reasoning.
* `async` functions performing RPC or store queries become pure functions
  over an explicit provider / store-interface record whose operations
  return `Except` (a thrown error is an `Except.error`).
* Address comparison `s.toLowerCase()` is modelled by a character-wise
  `toLowerStr` (kernel-computable, same behaviour on ASCII addresses).
-/

namespace TarotFlow

/-- A civil calendar date, as JavaScript's local-time `Date` components:
`year`, `month` (1–12 in this model; JS is 0-based but the shift is
uniform), `day` (1-based day of month). -/
structure CivilDate where
  year : Int
  month : Nat
  day : Nat
deriving DecidableEq, Repr

/-- Gregorian leap-year rule, as used by JavaScript `Date`. -/
def isLeap (y : Int) : Bool :=
  y % 4 == 0 && (y % 100 != 0 || y % 400 == 0)

/-- Number of days in month `m` of year `y` (months outside 1–12 get the
default 31; the normalisation below never produces such a month). -/
def daysInMonth (y : Int) (m : Nat) : Nat :=
  if m = 2 then (if isLeap y then 29 else 28)
  else if m = 4 ∨ m = 6 ∨ m = 9 ∨ m = 11 then 30
  else 31

theorem daysInMonth_ge28 (y : Int) (m : Nat) : 28 ≤ daysInMonth y m := by
  simp only [daysInMonth]
  split
  · split <;> omega
  · split <;> omega

theorem daysInMonth_twelve (y : Int) : daysInMonth y 12 = 31 := by
  norm_num [daysInMonth]

/-- Fuel-indexed month-rolling normalisation of a (possibly overflowing)
day-of-month `k`, as performed by JavaScript's `setDate`: while `k`
exceeds the current month's length, subtract that length and advance to
the next month.  Fuel `k` always suffices (each step removes ≥ 28). -/
def normDateGo : Nat → Int → Nat → Nat → CivilDate
  | 0, y, m, k => ⟨y, m, k⟩
  | fuel + 1, y, m, k =>
    if k ≤ daysInMonth y m then ⟨y, m, k⟩
    else if m = 12 then normDateGo fuel (y + 1) 1 (k - 31)
    else normDateGo fuel y (m + 1) (k - daysInMonth y m)

/-- The `Date` normalisation of day-of-month `k ≥ 1` relative to year `y`,
month `m`. -/
def normDate (y : Int) (m : Nat) (k : Nat) : CivilDate :=
  normDateGo k y m k

/-- The calendar successor (next day) of a civil date. -/
def nextDay (c : CivilDate) : CivilDate :=
  if c.day + 1 ≤ daysInMonth c.year c.month then ⟨c.year, c.month, c.day + 1⟩
  else if c.month = 12 then ⟨c.year + 1, 1, 1⟩
  else ⟨c.year, c.month + 1, 1⟩

/-- A civil date with months in range and the day within the month. -/
def validCivil (c : CivilDate) : Prop :=
  1 ≤ c.month ∧ c.month ≤ 12 ∧ 1 ≤ c.day ∧ c.day ≤ daysInMonth c.year c.month

instance (c : CivilDate) : Decidable (validCivil c) := by
  unfold validCivil; infer_instance

theorem normDateGo_fuel (k : Nat) (f1 f2 : Nat) (y : Int) (m : Nat)
    (hk : 1 ≤ k) (h1 : k ≤ f1) (h2 : k ≤ f2) :
    normDateGo f1 y m k = normDateGo f2 y m k := by
  induction k using Nat.strong_induction_on generalizing f1 f2 y m with
  | _ k ih =>
  obtain ⟨g1, rfl⟩ : ∃ g, f1 = g + 1 := ⟨f1 - 1, by omega⟩
  obtain ⟨g2, rfl⟩ : ∃ g, f2 = g + 1 := ⟨f2 - 1, by omega⟩
  simp only [normDateGo]
  by_cases hle : k ≤ daysInMonth y m
  · rw [if_pos hle, if_pos hle]
  · have hd := daysInMonth_ge28 y m
    rw [if_neg hle, if_neg hle]
    by_cases hm : m = 12
    · subst hm
      have h31 := daysInMonth_twelve y
      rw [if_pos rfl, if_pos rfl]
      exact ih (k - 31) (by omega) g1 g2 (y + 1) 1 (by omega) (by omega) (by omega)
    · rw [if_neg hm, if_neg hm]
      exact ih (k - daysInMonth y m) (by omega) g1 g2 y (m + 1)
        (by omega) (by omega) (by omega)

theorem normDateGo_succ (k : Nat) (fuel : Nat) (y : Int) (m : Nat)
    (hm1 : 1 ≤ m) (hm2 : m ≤ 12) (hk : 1 ≤ k) (hf : k + 1 ≤ fuel) :
    normDateGo fuel y m (k + 1) = nextDay (normDateGo fuel y m k) := by
  induction k using Nat.strong_induction_on generalizing fuel y m with
  | _ k ih =>
  obtain ⟨g, rfl⟩ : ∃ g, fuel = g + 1 := ⟨fuel - 1, by omega⟩
  have hd := daysInMonth_ge28 y m
  simp only [normDateGo]
  by_cases h1 : k + 1 ≤ daysInMonth y m
  · rw [if_pos h1, if_pos (by omega : k ≤ daysInMonth y m)]
    simp only [nextDay]
    rw [if_pos h1]
  · rw [if_neg h1]
    by_cases h2 : k ≤ daysInMonth y m
    · -- k is exactly the last day of the month
      have hkd : k = daysInMonth y m := by omega
      rw [if_pos h2]
      simp only [nextDay]
      rw [if_neg (by omega : ¬ k + 1 ≤ daysInMonth y m)]
      by_cases hm : m = 12
      · subst hm
        have h31 := daysInMonth_twelve y
        rw [if_pos rfl, if_pos rfl]
        obtain ⟨g2, rfl⟩ : ∃ g2, g = g2 + 1 := ⟨g - 1, by omega⟩
        have : k + 1 - 31 = 1 := by omega
        rw [this]
        simp only [normDateGo]
        rw [if_pos (by have := daysInMonth_ge28 (y + 1) 1; omega : 1 ≤ daysInMonth (y + 1) 1)]
      · rw [if_neg hm, if_neg hm]
        obtain ⟨g2, rfl⟩ : ∃ g2, g = g2 + 1 := ⟨g - 1, by omega⟩
        have : k + 1 - daysInMonth y m = 1 := by omega
        rw [this]
        simp only [normDateGo]
        rw [if_pos (by have := daysInMonth_ge28 y (m + 1); omega : 1 ≤ daysInMonth y (m + 1))]
    · rw [if_neg h2]
      by_cases hm : m = 12
      · subst hm
        have h31 := daysInMonth_twelve y
        rw [if_pos rfl, if_pos rfl]
        have e1 : k + 1 - 31 = (k - 31) + 1 := by omega
        rw [e1]
        exact ih (k - 31) (by omega) g (y + 1) 1 (by omega) (by omega) (by omega) (by omega)
      · rw [if_neg hm, if_neg hm]
        have e1 : k + 1 - daysInMonth y m = (k - daysInMonth y m) + 1 := by omega
        rw [e1]
        exact ih (k - daysInMonth y m) (by omega) g y (m + 1)
          (by omega) (by omega) (by omega) (by omega)

theorem normDate_succ (y : Int) (m k : Nat)
    (hm1 : 1 ≤ m) (hm2 : m ≤ 12) (hk : 1 ≤ k) :
    normDate y m (k + 1) = nextDay (normDate y m k) := by
  unfold normDate
  rw [normDateGo_fuel k k (k + 1) y m hk (by omega) (by omega)]
  exact normDateGo_succ k (k + 1) y m hm1 hm2 hk (by omega)

/-- Normalising `d + n` starting from a valid date lands exactly `n`
calendar days after that date, whatever the month lengths traversed. -/
theorem normDate_add (y : Int) (m d n : Nat)
    (hm1 : 1 ≤ m) (hm2 : m ≤ 12) (hd1 : 1 ≤ d) (hd2 : d ≤ daysInMonth y m) :
    normDate y m (d + n) = Nat.iterate nextDay n ⟨y, m, d⟩ := by
  induction n with
  | zero =>
    unfold normDate
    obtain ⟨e, rfl⟩ : ∃ e, d = e + 1 := ⟨d - 1, by omega⟩
    simp only [normDateGo]
    rw [if_pos hd2]
    rfl
  | succ n ih =>
    have e1 : d + (n + 1) = (d + n) + 1 := by omega
    rw [e1, normDate_succ y m (d + n) hm1 hm2 (by omega), ih,
      Function.iterate_succ_apply']

/-- A JavaScript `Date` value: a civil date plus the time of day. -/
structure JsDate where
  civil : CivilDate
  tod : Nat
deriving DecidableEq, Repr

/-- Models `date.setDate(k)` for `k ≥ 1`: replace the day-of-month by `k`,
normalising overflow into later months; the time of day is unchanged. -/
def JsDate.setDayOfMonth (t : JsDate) (k : Nat) : JsDate :=
  { t with civil := normDate t.civil.year t.civil.month k }

/-- Chronological strict order on civil dates (lexicographic, which for
valid dates agrees with epoch-milliseconds order). -/
def CivilDate.ltb (a b : CivilDate) : Bool :=
  decide (a.year < b.year) ||
    (a.year == b.year &&
      (decide (a.month < b.month) ||
        (a.month == b.month && decide (a.day < b.day))))

/-- Chronological strict order on `Date` values. -/
def JsDate.ltb (a b : JsDate) : Bool :=
  CivilDate.ltb a.civil b.civil || (a.civil == b.civil && decide (a.tod < b.tod))

/-- Models `s.toLowerCase()`: character-wise lowercasing (addresses are ASCII). -/
def toLowerStr (s : String) : String :=
  ⟨s.data.map Char.toLower⟩

/-- Case-insensitive address equality, `a.toLowerCase() === b.toLowerCase()`. -/
def addrEq (a b : String) : Bool :=
  toLowerStr a == toLowerStr b

/-- The exact value of `parseFloat(ethers.formatUnits(v, d))`: the raw
integer amount `v` scaled down by `10 ^ d` (6 for USDC, 18 for ETH). -/
def formatUnits (v : Int) (d : Nat) : ℚ :=
  mkRat v (10 ^ d)

/-- A `Transfer(address,address,uint256)` event as decoded by
`usdcContract.interface.parseLog` (`event.name`, `event.args`). -/
structure ParsedEvent where
  name : String
  argFrom : String
  argTo : String
  value : Int
deriving DecidableEq, Repr

/-- One receipt log entry: the emitting contract address plus the result
of attempting to parse it against the Transfer ABI (`parseResult = none`
models `parseLog` throwing on a malformed entry). -/
structure LogEntry where
  address : String
  parseResult : Option ParsedEvent
deriving DecidableEq, Repr

/-- A transaction receipt (`provider.getTransactionReceipt`):
execution `status` (1 = success) and the emitted logs. -/
structure ReceiptInfo where
  status : Nat
  logs : List LogEntry
  blockNumber : Nat
deriving DecidableEq, Repr

/-- A transaction (`provider.getTransaction`): destination (`to`, absent
for contract creation), source and native value in wei. -/
structure TransactionInfo where
  toAddr : Option String
  fromAddr : String
  value : Int
deriving DecidableEq, Repr

/-- The chain RPC collaborator used by `BaseService`: receipt and
transaction lookup by hash (`Except.error` models a thrown network
error, `Option.none` a hash unknown to the chain), the USDC contract's
`decimals()` call and the configured USDC contract address. -/
structure ChainProvider where
  getTransactionReceipt : String → Except String (Option ReceiptInfo)
  getTransaction : String → Except String (Option TransactionInfo)
  decimals : Except String Nat
  usdcAddress : String

/-- The distinct failure outcomes of `verifyUsdcPayment` /
`verifyEthPayment`, one constructor per `throw` site of the source (the
source distinguishes them by their `Error` message, rendered by
`paymentErrMessage`). -/
inductive PaymentErr where
  /-- a thrown RPC/network error (`ChainUnavailable`), carrying the
  underlying message -/
  | chainError (msg : String)
  /-- message `'Transaction not found'` -/
  | txNotFound
  /-- message `'Transaction receipt not found'` (ETH path) -/
  | receiptNotFound
  /-- message `'Transaction failed'` (receipt status ≠ 1, i.e. reverted) -/
  | txFailed
  /-- message `'No USDC transfer found in transaction'` -/
  | noTransferFound
  /-- transfer / transaction not directed to the store wallet -/
  | notToStore
  /-- message `'Insufficient payment: expected …, got …'` -/
  | insufficient (expected actual : ℚ)
deriving DecidableEq, Repr

/-- The `Error` message of each failure, exactly as thrown by the source. -/
def paymentErrMessage : PaymentErr → String
  | .chainError msg => msg
  | .txNotFound => "Transaction not found"
  | .receiptNotFound => "Transaction receipt not found"
  | .txFailed => "Transaction failed"
  | .noTransferFound => "No USDC transfer found in transaction"
  | .notToStore => "USDC transfer not directed to store wallet"
  | .insufficient expected actual =>
    "Insufficient payment: expected " ++ toString expected ++ ", got " ++ toString actual

/-- Successful result of payment verification:
`{ success: true, amount, from, transactionDetails }`. -/
structure VerifyOk where
  success : Bool
  amount : ℚ
  fromAddr : String
  blockNumber : Nat
deriving DecidableEq, Repr

/-- The USDC transfer-event extraction of `verifyUsdcPayment`
(`receipt.logs.filter(log => log.address.toLowerCase() ===
usdcAddress.toLowerCase()).map(parseLog-or-null).filter(e => e !== null
&& e.name === 'Transfer')`). -/
def transferEvents (usdcAddress : String) (logs : List LogEntry) : List ParsedEvent :=
  (((logs.filter (fun log => addrEq log.address usdcAddress)).filterMap
    (fun log => log.parseResult)).filter (fun event => event.name == "Transfer"))

/-- Models `BaseService.verifyUsdcPayment(transactionHash, expectedAmountUsd,
recipientAddress)`.  The source throws `Error`s; here each throw site is
the corresponding `PaymentErr` (the controller's `catch` receives it with
message `'Payment verification failed: ' + paymentErrMessage e`). -/
def verifyUsdcPayment (p : ChainProvider) (transactionHash : String)
    (expectedAmountUsd : ℚ) (recipientAddress : String) :
    Except PaymentErr VerifyOk :=
  match p.getTransactionReceipt transactionHash with
  | .error msg => .error (.chainError msg)
  | .ok none => .error .txNotFound
  | .ok (some receipt) =>
    if receipt.status ≠ 1 then .error .txFailed
    else
      let events := transferEvents p.usdcAddress receipt.logs
      if events.length = 0 then .error .noTransferFound
      else
        match events.find? (fun event => addrEq event.argTo recipientAddress) with
        | none => .error .notToStore
        | some relevantEvent =>
          match p.decimals with
          | .error msg => .error (.chainError msg)
          | .ok decimals =>
            let amountUsd := formatUnits relevantEvent.value decimals
            if amountUsd < expectedAmountUsd then
              .error (.insufficient expectedAmountUsd amountUsd)
            else
              .ok ⟨true, amountUsd, relevantEvent.argFrom, receipt.blockNumber⟩

/-- Models `BaseService.verifyEthPayment(transactionHash, expectedAmountEth,
recipientAddress)`. -/
def verifyEthPayment (p : ChainProvider) (transactionHash : String)
    (expectedAmountEth : ℚ) (recipientAddress : String) :
    Except PaymentErr VerifyOk :=
  match p.getTransaction transactionHash with
  | .error msg => .error (.chainError msg)
  | .ok none => .error .txNotFound
  | .ok (some transaction) =>
    match p.getTransactionReceipt transactionHash with
    | .error msg => .error (.chainError msg)
    | .ok none => .error .receiptNotFound
    | .ok (some receipt) =>
      if receipt.status ≠ 1 then .error .txFailed
      else if (transaction.toAddr.map toLowerStr) ≠ some (toLowerStr recipientAddress) then
        .error .notToStore
      else
        let amountEth := formatUnits transaction.value 18
        if amountEth < expectedAmountEth then
          .error (.insufficient expectedAmountEth amountEth)
        else
          .ok ⟨true, amountEth, transaction.fromAddr, receipt.blockNumber⟩

/-- A user's persisted subscription sub-record
(`{tierId, startDate, endDate, isActive}`). -/
structure Subscription where
  tierId : String
  startDate : JsDate
  endDate : JsDate
  isActive : Bool
deriving DecidableEq, Repr

/-- A persisted user (fields of the source's `User` used by this
subsystem). -/
structure User where
  id : String
  walletAddress : String
  role : String
  whitelistStatus : String
  subscription : Option Subscription
  updatedAt : JsDate
deriving DecidableEq, Repr

/-- Models `video.pricing`: the single-purchase USD price, plus the
subscription flag the spec's access formula refers to. -/
structure VideoPricing where
  singlePriceUsd : ℚ
  isFreeWithSubscription : Bool
deriving DecidableEq, Repr

/-- Models `video.mediaUrls` (only the secure content URL matters here). -/
structure MediaUrls where
  video : String
deriving DecidableEq, Repr

/-- A catalog video (fields used by the purchase/content paths). -/
structure Video where
  id : String
  isActive : Bool
  pricing : VideoPricing
  mediaUrls : MediaUrls
deriving DecidableEq, Repr

/-- A subscription tier (`{id, name, priceUsd, durationDays, isActive}`). -/
structure SubscriptionTier where
  id : String
  name : String
  priceUsd : ℚ
  durationDays : Nat
  isActive : Bool
deriving DecidableEq, Repr

/-- A persisted `user_video_access` record. -/
structure UserVideoAccess where
  id : String
  userId : String
  videoId : String
  accessType : String
  transactionHash : String
  purchaseDate : JsDate
  paymentToken : String
  amountPaid : ℚ
  watchHistory : List String
  isFavorite : Bool
deriving DecidableEq, Repr

/-- The GolemDB query collaborator (`client.queryEntities` specialised to
the tag queries this subsystem issues); `Except.error` models a thrown
query error, the list is the decoded entities in store order. -/
structure GolemClient where
  queryUsersByWallet : String → Except String (List User)
  queryUsersById : String → Except String (List User)
  queryVideosById : String → Except String (List Video)
  queryTiersById : String → Except String (List SubscriptionTier)
  queryAccess : String → String → Except String (List UserVideoAccess)

/-- Models `GolemDBService.findUserByWallet`: first entity of
`type = "user" && walletAddress = w`, `null` on a caught query error. -/
def findUserByWallet (c : GolemClient) (walletAddress : String) : Option User :=
  match c.queryUsersByWallet walletAddress with
  | .ok entities => entities.head?
  | .error _ => none

/-- Models `GolemDBService.getUserById` (private helper of `updateUser`). -/
def getUserById (c : GolemClient) (id : String) : Option User :=
  match c.queryUsersById id with
  | .ok entities => entities.head?
  | .error _ => none

/-- Models `GolemDBService.getVideoById`. -/
def getVideoById (c : GolemClient) (id : String) : Option Video :=
  match c.queryVideosById id with
  | .ok entities => entities.head?
  | .error _ => none

/-- Models `GolemDBService.getSubscriptionTierById`. -/
def getSubscriptionTierById (c : GolemClient) (id : String) : Option SubscriptionTier :=
  match c.queryTiersById id with
  | .ok entities => entities.head?
  | .error _ => none

/-- Models `GolemDBService.checkUserVideoAccess(userId, videoId)`: true when a
`user_video_access` record matches, else falls back to the subscription
of the user found by `findUserByWallet("")` (the literal empty string in
the source, with the comment "We'd need wallet address here"); any
caught query error yields `false`. -/
def checkUserVideoAccess (c : GolemClient) (now : JsDate)
    (userId : String) (videoId : String) : Bool :=
  match c.queryAccess userId videoId with
  | .error _ => false
  | .ok entities =>
    if entities.length > 0 then true
    else
      match findUserByWallet c "" with
      | some user =>
        match user.subscription with
        | some sub => sub.isActive && JsDate.ltb now sub.endDate
        | none => false
      | none => false

/-- The persisted state behind the queries: decoded entities in creation
order (the GolemDB backend is append-only). -/
structure Store where
  users : List User
  videos : List Video
  tiers : List SubscriptionTier
  accessRecords : List UserVideoAccess
deriving DecidableEq, Repr

/-- The query collaborator induced by a concrete store: each tag query
filters the matching collection and never errors. -/
def Store.client (s : Store) : GolemClient where
  queryUsersByWallet := fun w => .ok (s.users.filter (fun u => u.walletAddress == w))
  queryUsersById := fun i => .ok (s.users.filter (fun u => u.id == i))
  queryVideosById := fun i => .ok (s.videos.filter (fun v => v.id == i))
  queryTiersById := fun i => .ok (s.tiers.filter (fun t => t.id == i))
  queryAccess := fun u v =>
    .ok (s.accessRecords.filter (fun r => r.userId == u && r.videoId == v))

/-- Models `GolemDBService.recordUserVideoAccess`: assign a fresh id
(`generateId()`, supplied here as `newId`) and append the record
unconditionally (`createEntities`); returns the stored record. -/
def recordUserVideoAccess (s : Store) (newId : String)
    (accessData : UserVideoAccess) : UserVideoAccess × Store :=
  let newAccess := { accessData with id := newId }
  (newAccess, { s with accessRecords := s.accessRecords ++ [newAccess] })

/-- Models `GolemDBService.updateUser(id, updates)`: fetch the existing user by
id, apply the object-spread merge (here `applyUpdates`, covering exactly
the fields the caller supplies), stamp `updatedAt` and append the new
version; `null` when the user does not exist. -/
def updateUser (s : Store) (now : JsDate) (id : String)
    (applyUpdates : User → User) : Option (User × Store) :=
  match getUserById s.client id with
  | none => none
  | some existingUser =>
    let updatedUser := { applyUpdates existingUser with updatedAt := now }
    some (updatedUser, { s with users := s.users ++ [updatedUser] })

/-- The authenticated principal reconstructed from the JWT (`req.user`). -/
structure AuthUser where
  id : String
  walletAddress : String
deriving DecidableEq, Repr

/-- Environment configuration consumed by the controller
(`process.env.STORE_WALLET_ADDRESS || ''`). -/
structure Env where
  storeWalletAddress : String
deriving DecidableEq, Repr

/-- Request body of `POST` video purchase plus the authenticated user
(absent body fields are the empty string, which JavaScript's falsiness
check treats like a missing field). -/
structure VideoPurchaseRequest where
  user : Option AuthUser
  transactionHash : String
  videoId : String
  paymentToken : String
deriving DecidableEq, Repr

/-- The HTTP outcomes of `PurchaseController.verifyVideoPurchase`, one
constructor per response site. -/
inductive VideoPurchaseOutcome where
  /-- 401 `'Authentication required'` -/
  | authRequired
  /-- 400 missing `transactionHash`/`videoId`/`paymentToken` -/
  | missingFields
  /-- 400 `'paymentToken must be either USDC or ETH'` -/
  | invalidToken
  /-- 403 `'User not whitelisted for purchases'` -/
  | notWhitelisted
  /-- 404 `'Video not found'` -/
  | videoNotFound
  /-- 400 `'Video is not available for purchase'` -/
  | videoInactive
  /-- 500 `'Purchase verification failed: Payment verification failed: '
  ++ paymentErrMessage e` (the verifier's throw reaches the controller's
  `catch`) -/
  | paymentFailed (e : PaymentErr)
  /-- 400 `'Payment verification failed'` (the `!paymentResult.success`
  branch) -/
  | paymentNotSuccess
  /-- 400 `'User already has access to this video'` -/
  | alreadyHasAccess
  /-- 200 grant with `accessId`, `amountPaid`, `paymentToken` -/
  | granted (accessId : String) (amountPaid : ℚ) (paymentToken : String)
deriving DecidableEq, Repr

/-- Models `PurchaseController.verifyVideoPurchase`.  `now` stands for the
clock readings of the request and `newId` for `generateId()`.  Returns
the HTTP outcome and the store after any write. -/
def verifyVideoPurchase (s : Store) (p : ChainProvider) (env : Env)
    (now : JsDate) (newId : String) (req : VideoPurchaseRequest) :
    VideoPurchaseOutcome × Store :=
  match req.user with
  | none => (.authRequired, s)
  | some authUser =>
    if authUser.id == "" then (.authRequired, s)
    else if req.transactionHash == "" || req.videoId == "" || req.paymentToken == "" then
      (.missingFields, s)
    else if req.paymentToken != "USDC" && req.paymentToken != "ETH" then
      (.invalidToken, s)
    else
      match findUserByWallet s.client authUser.walletAddress with
      | none => (.notWhitelisted, s)
      | some user =>
        if user.whitelistStatus != "approved" then (.notWhitelisted, s)
        else
          match getVideoById s.client req.videoId with
          | none => (.videoNotFound, s)
          | some video =>
            if !video.isActive then (.videoInactive, s)
            else
              let paymentResult :=
                if req.paymentToken == "USDC" then
                  verifyUsdcPayment p req.transactionHash
                    video.pricing.singlePriceUsd env.storeWalletAddress
                else
                  verifyEthPayment p req.transactionHash
                    video.pricing.singlePriceUsd env.storeWalletAddress
              match paymentResult with
              | .error e => (.paymentFailed e, s)
              | .ok paymentRes =>
                if !paymentRes.success then (.paymentNotSuccess, s)
                else if checkUserVideoAccess s.client now authUser.id req.videoId then
                  (.alreadyHasAccess, s)
                else
                  let rec0 : UserVideoAccess :=
                    { id := "", userId := authUser.id, videoId := req.videoId,
                      accessType := "purchase",
                      transactionHash := req.transactionHash,
                      purchaseDate := now, paymentToken := req.paymentToken,
                      amountPaid := paymentRes.amount, watchHistory := [],
                      isFavorite := false }
                  let result := recordUserVideoAccess s newId rec0
                  (.granted result.1.id paymentRes.amount req.paymentToken, result.2)

/-- Request body of the subscription purchase endpoint. -/
structure SubscriptionPurchaseRequest where
  user : Option AuthUser
  transactionHash : String
  tierId : String
  paymentToken : String
deriving DecidableEq, Repr

/-- The HTTP outcomes of `PurchaseController.verifySubscriptionPurchase`. -/
inductive SubscriptionPurchaseOutcome where
  | authRequired
  | missingFields
  | invalidToken
  | notWhitelisted
  /-- 404 `'Subscription tier not found'` -/
  | tierNotFound
  /-- 400 `'Subscription tier is not available'` -/
  | tierInactive
  | paymentFailed (e : PaymentErr)
  | paymentNotSuccess
  /-- 500 `'Failed to update user subscription'` -/
  | updateFailed
  /-- 200 with the new subscription object -/
  | subscribed (sub : Subscription) (amountPaid : ℚ) (paymentToken : String)
deriving DecidableEq, Repr

/-- Models `PurchaseController.verifySubscriptionPurchase`.  The source reads
the clock twice in immediate succession (`startDate = new Date();
endDate = new Date()`); both readings are the single `now` here, and
`endDate.setDate(startDate.getDate() + tier.durationDays)` becomes
`setDayOfMonth`. -/
def verifySubscriptionPurchase (s : Store) (p : ChainProvider) (env : Env)
    (now : JsDate) (req : SubscriptionPurchaseRequest) :
    SubscriptionPurchaseOutcome × Store :=
  match req.user with
  | none => (.authRequired, s)
  | some authUser =>
    if authUser.id == "" then (.authRequired, s)
    else if req.transactionHash == "" || req.tierId == "" || req.paymentToken == "" then
      (.missingFields, s)
    else if req.paymentToken != "USDC" && req.paymentToken != "ETH" then
      (.invalidToken, s)
    else
      match findUserByWallet s.client authUser.walletAddress with
      | none => (.notWhitelisted, s)
      | some user =>
        if user.whitelistStatus != "approved" then (.notWhitelisted, s)
        else
          match getSubscriptionTierById s.client req.tierId with
          | none => (.tierNotFound, s)
          | some tier =>
            if !tier.isActive then (.tierInactive, s)
            else
              let paymentResult :=
                if req.paymentToken == "USDC" then
                  verifyUsdcPayment p req.transactionHash tier.priceUsd
                    env.storeWalletAddress
                else
                  verifyEthPayment p req.transactionHash tier.priceUsd
                    env.storeWalletAddress
              match paymentResult with
              | .error e => (.paymentFailed e, s)
              | .ok paymentRes =>
                if !paymentRes.success then (.paymentNotSuccess, s)
                else
                  let startDate := now
                  let endDate :=
                    JsDate.setDayOfMonth now (startDate.civil.day + tier.durationDays)
                  let newSub : Subscription :=
                    { tierId := tier.id, startDate := startDate,
                      endDate := endDate, isActive := true }
                  match updateUser s now authUser.id
                    (fun u => { u with subscription := some newSub }) with
                  | none => (.updateFailed, s)
                  | some result =>
                    (.subscribed newSub paymentRes.amount req.paymentToken, result.2)

/-- Request of the cancel endpoint (no body fields are read). -/
structure CancelRequest where
  user : Option AuthUser
deriving DecidableEq, Repr

/-- The HTTP outcomes of `PurchaseController.cancelSubscription`. -/
inductive CancelOutcome where
  | authRequired
  /-- 404 `'User not found'` -/
  | userNotFound
  /-- 400 `'No active subscription found'` -/
  | noActiveSubscription
  /-- 500 `'Failed to cancel subscription'` -/
  | updateFailed
  /-- 200, echoing the updated user's subscription -/
  | cancelled (sub : Option Subscription)
deriving DecidableEq, Repr

/-- Models `PurchaseController.cancelSubscription`. -/
def cancelSubscription (s : Store) (now : JsDate) (req : CancelRequest) :
    CancelOutcome × Store :=
  match req.user with
  | none => (.authRequired, s)
  | some authUser =>
    if authUser.id == "" then (.authRequired, s)
    else
      match findUserByWallet s.client authUser.walletAddress with
      | none => (.userNotFound, s)
      | some user =>
        match user.subscription with
        | none => (.noActiveSubscription, s)
        | some sub =>
          if !sub.isActive then (.noActiveSubscription, s)
          else
            match updateUser s now authUser.id
              (fun u => { u with subscription := some { sub with isActive := false } }) with
            | none => (.updateFailed, s)
            | some result => (.cancelled result.1.subscription, result.2)

/-- The HTTP outcomes of `VideoController.getVideoContent` (the
content-serving path gated by `checkUserVideoAccess`). -/
inductive VideoContentOutcome where
  /-- 400 `'Video ID is required'` -/
  | missingId
  /-- 401 `'Authentication required'` -/
  | authRequired
  /-- 404 `'Video not found'` -/
  | videoNotFound
  /-- 404 `'Video not available'` -/
  | videoInactive
  /-- 403 `'Access to this video requires purchase or subscription'` -/
  | accessDenied
  /-- 200 with the secure video URL -/
  | contentUrl (url : String)
deriving DecidableEq, Repr

/-- Models `VideoController.getVideoContent`. -/
def getVideoContent (s : Store) (now : JsDate) (videoId : String)
    (user : Option AuthUser) : VideoContentOutcome :=
  if videoId == "" then .missingId
  else
    match user with
    | none => .authRequired
    | some authUser =>
      match getVideoById s.client videoId with
      | none => .videoNotFound
      | some video =>
        if !video.isActive then .videoInactive
        else if checkUserVideoAccess s.client now authUser.id video.id then
          .contentUrl video.mediaUrls.video
        else .accessDenied

/-! ### Supporting lemmas -/

theorem verifyUsdcPayment_ok_success (p : ChainProvider) (txh : String)
    (expected : ℚ) (recipient : String) (ok : VerifyOk)
    (h : verifyUsdcPayment p txh expected recipient = .ok ok) :
    ok.success = true := by
  simp only [verifyUsdcPayment] at h
  repeat' split at h
  all_goals first
    | (injection h with h; rw [← h])
    | simp_all

theorem verifyEthPayment_ok_success (p : ChainProvider) (txh : String)
    (expected : ℚ) (recipient : String) (ok : VerifyOk)
    (h : verifyEthPayment p txh expected recipient = .ok ok) :
    ok.success = true := by
  simp only [verifyEthPayment] at h
  repeat' split at h
  all_goals first
    | (injection h with h; rw [← h])
    | simp_all

/-! ### C4 — `InsufficientAmount` exactly on a strictly smaller amount -/

/-- C4.  For every payment claim, verification fails with
`InsufficientAmount` exactly when the chain-derived transferred amount is
strictly less than the expected amount, and an amount equal to or
exceeding the expected amount is accepted — on both the USDC
(fungible-token) path and the ETH (native-coin) path. -/
theorem insufficient_iff_lt_expected (p : ChainProvider)
    (txh recipient : String) (expected : ℚ)
    (receipt : ReceiptInfo)
    (hrc : p.getTransactionReceipt txh = .ok (some receipt))
    (hst : receipt.status = 1)
    (ev : ParsedEvent)
    (hfind : (transferEvents p.usdcAddress receipt.logs).find?
      (fun event => addrEq event.argTo recipient) = some ev)
    (d : Nat) (hdec : p.decimals = .ok d)
    (tx : TransactionInfo)
    (htx : p.getTransaction txh = .ok (some tx))
    (hto : tx.toAddr.map toLowerStr = some (toLowerStr recipient)) :
    verifyUsdcPayment p txh expected recipient =
      (if formatUnits ev.value d < expected
       then .error (.insufficient expected (formatUnits ev.value d))
       else .ok ⟨true, formatUnits ev.value d, ev.argFrom, receipt.blockNumber⟩)
    ∧ verifyEthPayment p txh expected recipient =
      (if formatUnits tx.value 18 < expected
       then .error (.insufficient expected (formatUnits tx.value 18))
       else .ok ⟨true, formatUnits tx.value 18, tx.fromAddr, receipt.blockNumber⟩) := by
  constructor
  · have hne : (transferEvents p.usdcAddress receipt.logs).length ≠ 0 := by
      intro h0
      rw [List.length_eq_zero] at h0
      rw [h0] at hfind
      simp [List.find?] at hfind
    unfold verifyUsdcPayment
    rw [hrc]
    simp only [hst, if_neg (by simp : ¬ (1 : Nat) ≠ 1), if_neg hne, hfind, hdec]
  · unfold verifyEthPayment
    rw [htx, hrc]
    simp only [hst, if_neg (by simp : ¬ (1 : Nat) ≠ 1), hto]
    rw [if_neg (by simp)]

/-- A sample chain state: transaction `0xh` with a successful receipt
carrying one USDC `Transfer` of 4.99 USDC (raw 4990000, 6 decimals) to
`0xStore`, native value 4.99 ETH. -/
def sampleProvider : ChainProvider where
  getTransactionReceipt := fun h =>
    if h == "0xh" then
      .ok (some ⟨1, [⟨"0xUSDC", some ⟨"Transfer", "0xPayer", "0xStore", 4990000⟩⟩], 100⟩)
    else .ok none
  getTransaction := fun h =>
    if h == "0xh" then .ok (some ⟨some "0xStore", "0xPayer", 4990000000000000000⟩)
    else .ok none
  decimals := .ok 6
  usdcAddress := "0xUSDC"

theorem insufficient_iff_lt_expected_witness :
    verifyUsdcPayment sampleProvider "0xh" 5 "0xstore" =
      (if formatUnits 4990000 6 < 5
       then .error (.insufficient 5 (formatUnits 4990000 6))
       else .ok ⟨true, formatUnits 4990000 6, "0xPayer", 100⟩)
    ∧ verifyEthPayment sampleProvider "0xh" 5 "0xstore" =
      (if formatUnits 4990000000000000000 18 < 5
       then .error (.insufficient 5 (formatUnits 4990000000000000000 18))
       else .ok ⟨true, formatUnits 4990000000000000000 18, "0xPayer", 100⟩) :=
  insufficient_iff_lt_expected sampleProvider "0xh" "0xstore" 5
    ⟨1, [⟨"0xUSDC", some ⟨"Transfer", "0xPayer", "0xStore", 4990000⟩⟩], 100⟩
    rfl rfl
    ⟨"Transfer", "0xPayer", "0xStore", 4990000⟩ (by decide)
    6 rfl
    ⟨some "0xStore", "0xPayer", 4990000000000000000⟩ rfl (by decide)

/-! ### C8 — log decoding filters by token address and drops malformed
entries silently -/

/-- C8.  When decoding token-transfer logs, every event the decoder
considers comes from a log entry whose emitting address equals the
configured token contract address case-insensitively (and parses as a
`Transfer` event); a log entry that fails to parse, or whose address
does not match, contributes nothing and is silently dropped — the
decoding still succeeds with the remaining events instead of failing. -/
theorem transferEvents_filter_and_lenient (usdcAddress : String)
    (logs : List LogEntry) :
    (∀ e ∈ transferEvents usdcAddress logs,
      e.name = "Transfer" ∧
      ∃ lg ∈ logs, addrEq lg.address usdcAddress = true ∧ lg.parseResult = some e)
  ∧ (∀ lg : LogEntry, lg.parseResult = none →
      transferEvents usdcAddress (lg :: logs) = transferEvents usdcAddress logs)
  ∧ (∀ lg : LogEntry, addrEq lg.address usdcAddress = false →
      transferEvents usdcAddress (lg :: logs) = transferEvents usdcAddress logs) := by
  refine ⟨?_, ?_, ?_⟩
  · intro e he
    unfold transferEvents at he
    rw [List.mem_filter] at he
    obtain ⟨hmem, hname⟩ := he
    rw [List.mem_filterMap] at hmem
    obtain ⟨lg, hlg, hparse⟩ := hmem
    rw [List.mem_filter] at hlg
    exact ⟨by simpa using hname, lg, hlg.1, hlg.2, hparse⟩
  · intro lg hnone
    simp only [transferEvents, List.filter_cons]
    split
    · simp [List.filterMap_cons, hnone]
    · rfl
  · intro lg haddr
    simp [transferEvents, List.filter_cons, haddr]

/-- A malformed log entry emitted by the token contract
(`parseLog` throws, modelled by `parseResult = none`). -/
def badLog : LogEntry := ⟨"0xUSDC", none⟩

/-- A well-formed `Transfer` log entry from the token contract. -/
def goodLog : LogEntry := ⟨"0xUSDC", some ⟨"Transfer", "0xA", "0xB", 7⟩⟩

theorem transferEvents_filter_and_lenient_witness :
    badLog.parseResult = none ∧
    transferEvents "0xusdc" [badLog, goodLog] = transferEvents "0xusdc" [goodLog] :=
  ⟨rfl, (transferEvents_filter_and_lenient "0xusdc" [goodLog]).2.1 badLog rfl⟩

/-! ### C9 — the access check fails closed on store errors -/

/-- C9.  If the underlying store query raises an error — whether the
`user_video_access` query itself or the user lookup of the subscription
fallback — `checkUserVideoAccess` returns `false` (access denied) rather
than propagating the error or granting access. -/
theorem checkUserVideoAccess_failsClosed (c : GolemClient) (now : JsDate)
    (userId videoId : String) :
    (∀ msg, c.queryAccess userId videoId = .error msg →
      checkUserVideoAccess c now userId videoId = false)
  ∧ (∀ msg, c.queryAccess userId videoId = .ok [] →
      c.queryUsersByWallet "" = .error msg →
      checkUserVideoAccess c now userId videoId = false) := by
  constructor
  · intro msg h
    unfold checkUserVideoAccess
    rw [h]
  · intro msg hacc husers
    unfold checkUserVideoAccess
    rw [hacc]
    simp only [List.length_nil, gt_iff_lt, lt_self_iff_false, if_false]
    unfold findUserByWallet
    rw [husers]

/-- A store client whose every query raises. -/
def failingClient : GolemClient where
  queryUsersByWallet := fun _ => .error "query failed"
  queryUsersById := fun _ => .error "query failed"
  queryVideosById := fun _ => .error "query failed"
  queryTiersById := fun _ => .error "query failed"
  queryAccess := fun _ _ => .error "query failed"

/-- A fixed clock reading used by the concrete scenarios. -/
def sampleNow : JsDate := ⟨⟨2026, 1, 15⟩, 43200000⟩

theorem checkUserVideoAccess_failsClosed_witness :
    failingClient.queryAccess "u1" "v1" = .error "query failed" ∧
    checkUserVideoAccess failingClient sampleNow "u1" "v1" = false :=
  ⟨rfl, (checkUserVideoAccess_failsClosed failingClient sampleNow "u1" "v1").1
    "query failed" rfl⟩

/-! ### C7 — cancellation clears `isActive` only, and fails exactly on a
missing or already-inactive subscription -/

/-- C7.  For an authenticated principal whose user record exists,
`cancelSubscription` fails with `NoActiveSubscription` exactly when the
user has no subscription or its `isActive` flag is already `false`; and
on an active subscription it stores the same subscription with
`isActive := false`, leaving `tierId`, `startDate` and `endDate`
unchanged. -/
theorem cancelSubscription_frame (s : Store) (now : JsDate)
    (authUser : AuthUser) (user : User)
    (hid : (authUser.id == "") = false)
    (hfind : findUserByWallet s.client authUser.walletAddress = some user) :
    ((cancelSubscription s now ⟨some authUser⟩).1 = .noActiveSubscription ↔
      (user.subscription = none ∨
        ∃ sub, user.subscription = some sub ∧ sub.isActive = false))
  ∧ (∀ sub existing, user.subscription = some sub → sub.isActive = true →
      getUserById s.client authUser.id = some existing →
      cancelSubscription s now ⟨some authUser⟩ =
        (.cancelled (some ⟨sub.tierId, sub.startDate, sub.endDate, false⟩),
         { s with users := s.users ++
            [{ existing with
                subscription := some ⟨sub.tierId, sub.startDate, sub.endDate, false⟩,
                updatedAt := now }] })) := by
  constructor
  · simp only [cancelSubscription, hid, hfind, Bool.false_eq_true, if_false]
    cases hsub : user.subscription with
    | none => simp
    | some sub =>
      cases hact : sub.isActive with
      | false => simp [hact]
      | true =>
        simp only [hact, Bool.not_true, Bool.false_eq_true, if_false]
        cases hupd : updateUser s now authUser.id
            (fun u => { u with subscription := some { sub with isActive := false } }) with
        | none => simp [hact]
        | some result => simp [hact]
  · intro sub existing hsub hact hgot
    simp only [cancelSubscription, hid, hfind, Bool.false_eq_true, if_false, hsub,
      hact, Bool.not_true, updateUser, hgot]

/-- A user holding an active 30-day subscription. -/
def c7User : User :=
  ⟨"u1", "0xw", "user", "approved",
    some ⟨"tier1", ⟨⟨2026, 1, 1⟩, 0⟩, ⟨⟨2026, 1, 31⟩, 0⟩, true⟩, ⟨⟨2026, 1, 1⟩, 0⟩⟩

/-- A store holding only `c7User`. -/
def c7Store : Store := ⟨[c7User], [], [], []⟩

theorem cancelSubscription_frame_witness :
    cancelSubscription c7Store sampleNow ⟨some ⟨"u1", "0xw"⟩⟩ =
      (.cancelled (some ⟨"tier1", ⟨⟨2026, 1, 1⟩, 0⟩, ⟨⟨2026, 1, 31⟩, 0⟩, false⟩),
       { c7Store with users := c7Store.users ++
          [{ c7User with
              subscription := some ⟨"tier1", ⟨⟨2026, 1, 1⟩, 0⟩, ⟨⟨2026, 1, 31⟩, 0⟩, false⟩,
              updatedAt := sampleNow }] }) :=
  (cancelSubscription_frame c7Store sampleNow ⟨"u1", "0xw"⟩ c7User rfl rfl).2
    ⟨"tier1", ⟨⟨2026, 1, 1⟩, 0⟩, ⟨⟨2026, 1, 31⟩, 0⟩, true⟩ c7User rfl rfl rfl

/-! ### C2 — the controller propagates the verifier's specific failure -/

/-- C2.  For every failing payment verification in the video-purchase
workflow, the controller returns exactly the failure the verifier
produced (`TransactionNotFound`, `TransactionReverted`,
`RecipientMismatch`, `InsufficientAmount`, `ChainUnavailable`, …): the
verifier's throw reaches the controller `catch` unchanged and is
rendered with its specific message (`paymentErrMessage`), never
collapsed into an undifferentiated failure; the store is not written. -/
theorem videoPurchase_propagates_verifier_failure (s : Store) (p : ChainProvider)
    (env : Env) (now : JsDate) (newId : String) (authUser : AuthUser)
    (txh vid : String) (user : User) (video : Video)
    (hid : (authUser.id == "") = false)
    (htx : (txh == "") = false) (hvid : (vid == "") = false)
    (hfind : findUserByWallet s.client authUser.walletAddress = some user)
    (hwl : user.whitelistStatus = "approved")
    (hgot : getVideoById s.client vid = some video)
    (hact : video.isActive = true) :
    (∀ e, verifyUsdcPayment p txh video.pricing.singlePriceUsd env.storeWalletAddress =
        .error e →
      verifyVideoPurchase s p env now newId ⟨some authUser, txh, vid, "USDC"⟩ =
        (.paymentFailed e, s))
  ∧ (∀ e, verifyEthPayment p txh video.pricing.singlePriceUsd env.storeWalletAddress =
        .error e →
      verifyVideoPurchase s p env now newId ⟨some authUser, txh, vid, "ETH"⟩ =
        (.paymentFailed e, s)) := by
  constructor
  · intro e hfail
    simp [verifyVideoPurchase, hid, htx, hvid, hfind, hwl, hgot, hact, hfail]
  · intro e hfail
    simp [verifyVideoPurchase, hid, htx, hvid, hfind, hwl, hgot, hact, hfail]

/-- A whitelisted user and an active 5.00-USD video, no access records. -/
def c2Store : Store :=
  ⟨[⟨"u1", "0xw", "user", "approved", none, ⟨⟨2026, 1, 1⟩, 0⟩⟩],
   [⟨"v1", true, ⟨5, false⟩, ⟨"https-v1"⟩⟩], [], []⟩

/-- A chain with no transactions at all. -/
def emptyProvider : ChainProvider where
  getTransactionReceipt := fun _ => .ok none
  getTransaction := fun _ => .ok none
  decimals := .ok 6
  usdcAddress := "0xUSDC"

/-- The store-wallet configuration used by the concrete scenarios. -/
def c2Env : Env := ⟨"0xstore"⟩

theorem videoPurchase_propagates_verifier_failure_witness :
    verifyUsdcPayment emptyProvider "0xh" 5 "0xstore" = .error .txNotFound ∧
    verifyVideoPurchase c2Store emptyProvider c2Env sampleNow "id1"
        ⟨some ⟨"u1", "0xw"⟩, "0xh", "v1", "USDC"⟩ =
      (.paymentFailed .txNotFound, c2Store) :=
  ⟨rfl,
    (videoPurchase_propagates_verifier_failure c2Store emptyProvider c2Env sampleNow
      "id1" ⟨"u1", "0xw"⟩ "0xh" "v1"
      ⟨"u1", "0xw", "user", "approved", none, ⟨⟨2026, 1, 1⟩, 0⟩⟩
      ⟨"v1", true, ⟨5, false⟩, ⟨"https-v1"⟩⟩
      rfl rfl rfl rfl rfl rfl rfl).1 .txNotFound rfl⟩

/-! ### C3 — the already-has-access check happens after payment
verification, not before -/

/-- A chain state where hash `0xh` carries a successful 5.00-USDC
transfer to the store wallet. -/
def okProvider : ChainProvider where
  getTransactionReceipt := fun h =>
    if h == "0xh" then
      .ok (some ⟨1, [⟨"0xUSDC", some ⟨"Transfer", "0xPayer", "0xstore", 5000000⟩⟩], 100⟩)
    else .ok none
  getTransaction := fun h =>
    if h == "0xh" then .ok (some ⟨some "0xstore", "0xPayer", 5000000000000000000⟩)
    else .ok none
  decimals := .ok 6
  usdcAddress := "0xUSDC"

/-- Like `c2Store`, but the user already owns video `v1`. -/
def c3Store : Store :=
  ⟨[⟨"u1", "0xw", "user", "approved", none, ⟨⟨2026, 1, 1⟩, 0⟩⟩],
   [⟨"v1", true, ⟨5, false⟩, ⟨"https-v1"⟩⟩], [],
   [⟨"id0", "u1", "v1", "purchase", "0xold", ⟨⟨2026, 1, 2⟩, 0⟩, "USDC", 5, [], false⟩]⟩

/-- C3 counterexample.  A request by a principal who already has access
to the video does *not* return `AlreadyGranted` without invoking payment
verification: with the chain not knowing the hash, the code returns the
payment failure, because the access check only runs after verification
succeeds. -/
theorem alreadyGranted_before_chain_call_false :
    checkUserVideoAccess c3Store.client sampleNow "u1" "v1" = true
    ∧ verifyVideoPurchase c3Store emptyProvider c2Env sampleNow "newid"
        ⟨some ⟨"u1", "0xw"⟩, "0xh", "v1", "USDC"⟩ =
      (.paymentFailed .txNotFound, c3Store)
    ∧ (verifyVideoPurchase c3Store emptyProvider c2Env sampleNow "newid"
        ⟨some ⟨"u1", "0xw"⟩, "0xh", "v1", "USDC"⟩).1 ≠ .alreadyHasAccess := by
  refine ⟨by decide, by decide, by decide⟩

/-- C3 amended.  The already-has-access check is performed *after* the
chain RPC call: when the principal already has access, the operation
returns `AlreadyGranted` (with no new record) only once payment
verification has succeeded; a verification failure is returned instead
(see the counterexample). -/
theorem accessCheck_after_verification (s : Store) (p : ChainProvider)
    (env : Env) (now : JsDate) (newId : String) (authUser : AuthUser)
    (txh vid : String) (user : User) (video : Video) (pay : VerifyOk)
    (hid : (authUser.id == "") = false)
    (htx : (txh == "") = false) (hvid : (vid == "") = false)
    (hfind : findUserByWallet s.client authUser.walletAddress = some user)
    (hwl : user.whitelistStatus = "approved")
    (hgot : getVideoById s.client vid = some video)
    (hact : video.isActive = true)
    (hok : verifyUsdcPayment p txh video.pricing.singlePriceUsd env.storeWalletAddress =
      .ok pay)
    (hacc : checkUserVideoAccess s.client now authUser.id vid = true) :
    verifyVideoPurchase s p env now newId ⟨some authUser, txh, vid, "USDC"⟩ =
      (.alreadyHasAccess, s) := by
  have hsucc := verifyUsdcPayment_ok_success p txh video.pricing.singlePriceUsd
    env.storeWalletAddress pay hok
  simp [verifyVideoPurchase, hid, htx, hvid, hfind, hwl, hgot, hact, hok, hsucc, hacc]

theorem accessCheck_after_verification_witness :
    checkUserVideoAccess c3Store.client sampleNow "u1" "v1" = true ∧
    verifyVideoPurchase c3Store okProvider c2Env sampleNow "newid"
        ⟨some ⟨"u1", "0xw"⟩, "0xh", "v1", "USDC"⟩ =
      (.alreadyHasAccess, c3Store) :=
  ⟨by decide,
    accessCheck_after_verification c3Store okProvider c2Env sampleNow "newid"
      ⟨"u1", "0xw"⟩ "0xh" "v1"
      ⟨"u1", "0xw", "user", "approved", none, ⟨⟨2026, 1, 1⟩, 0⟩⟩
      ⟨"v1", true, ⟨5, false⟩, ⟨"https-v1"⟩⟩
      ⟨true, formatUnits 5000000 6, "0xPayer", 100⟩
      rfl rfl rfl rfl rfl rfl rfl rfl (by decide)⟩

/-! ### C1 — no per-transaction-hash uniqueness of entitlement records -/

/-- A whitelisted user and two active 5.00-USD videos, no records yet. -/
def c1Store : Store :=
  ⟨[⟨"u1", "0xw", "user", "approved", none, ⟨⟨2026, 1, 1⟩, 0⟩⟩],
   [⟨"v1", true, ⟨5, false⟩, ⟨"https-v1"⟩⟩, ⟨"v2", true, ⟨5, false⟩, ⟨"https-v2"⟩⟩],
   [], []⟩

/-- C1 counterexample.  Two sequential video-purchase calls with the
*same* transaction hash `0xh` but different videos both succeed, and the
store ends up with **two** entitlement records for that hash — the code
enforces no per-transaction-hash uniqueness (its duplicate check is keyed
on `(userId, videoId)` only, and runs only after re-verifying the same
payment). -/
theorem one_record_per_hash_false :
    (verifyVideoPurchase c1Store okProvider c2Env sampleNow "id1"
      ⟨some ⟨"u1", "0xw"⟩, "0xh", "v1", "USDC"⟩).1 =
        .granted "id1" (formatUnits 5000000 6) "USDC"
    ∧ (verifyVideoPurchase
        (verifyVideoPurchase c1Store okProvider c2Env sampleNow "id1"
          ⟨some ⟨"u1", "0xw"⟩, "0xh", "v1", "USDC"⟩).2
        okProvider c2Env sampleNow "id2"
        ⟨some ⟨"u1", "0xw"⟩, "0xh", "v2", "USDC"⟩).1 =
        .granted "id2" (formatUnits 5000000 6) "USDC"
    ∧ ((verifyVideoPurchase
        (verifyVideoPurchase c1Store okProvider c2Env sampleNow "id1"
          ⟨some ⟨"u1", "0xw"⟩, "0xh", "v1", "USDC"⟩).2
        okProvider c2Env sampleNow "id2"
        ⟨some ⟨"u1", "0xw"⟩, "0xh", "v2", "USDC"⟩).2.accessRecords.filter
          (fun r => r.transactionHash == "0xh")).length = 2 := by
  refine ⟨by decide, by decide, by decide⟩

/-- C1 amended.  Idempotence holds only per `(userId, videoId)`, and
only sequentially: a successful purchase appends exactly one record, and
a repeated call for the *same* user and video (here with the same hash)
returns the already-has-access outcome and appends nothing — while a
repeat with the same hash on a different video creates a second record
(see the counterexample). -/
theorem videoPurchase_idempotent_per_video (s : Store) (p : ChainProvider)
    (env : Env) (now : JsDate) (newId newId2 : String) (authUser : AuthUser)
    (txh vid : String) (user : User) (video : Video) (pay : VerifyOk)
    (hid : (authUser.id == "") = false)
    (htx : (txh == "") = false) (hvid : (vid == "") = false)
    (hfind : findUserByWallet s.client authUser.walletAddress = some user)
    (hwl : user.whitelistStatus = "approved")
    (hgot : getVideoById s.client vid = some video)
    (hact : video.isActive = true)
    (hok : verifyUsdcPayment p txh video.pricing.singlePriceUsd env.storeWalletAddress =
      .ok pay)
    (hnoacc : checkUserVideoAccess s.client now authUser.id vid = false) :
    verifyVideoPurchase s p env now newId ⟨some authUser, txh, vid, "USDC"⟩ =
      (.granted newId pay.amount "USDC",
       { s with accessRecords := s.accessRecords ++
          [⟨newId, authUser.id, vid, "purchase", txh, now, "USDC", pay.amount, [], false⟩] })
    ∧ verifyVideoPurchase
        { s with accessRecords := s.accessRecords ++
          [⟨newId, authUser.id, vid, "purchase", txh, now, "USDC", pay.amount, [], false⟩] }
        p env now newId2 ⟨some authUser, txh, vid, "USDC"⟩ =
      (.alreadyHasAccess,
       { s with accessRecords := s.accessRecords ++
          [⟨newId, authUser.id, vid, "purchase", txh, now, "USDC", pay.amount, [], false⟩] }) := by
  have hsucc := verifyUsdcPayment_ok_success p txh video.pricing.singlePriceUsd
    env.storeWalletAddress pay hok
  constructor
  · simp [verifyVideoPurchase, hid, htx, hvid, hfind, hwl, hgot, hact, hok, hsucc,
      hnoacc, recordUserVideoAccess]
  · have hfind2 : findUserByWallet
        ({ s with accessRecords := s.accessRecords ++
          [⟨newId, authUser.id, vid, "purchase", txh, now, "USDC", pay.amount, [], false⟩] }
          : Store).client authUser.walletAddress = some user := hfind
    have hgot2 : getVideoById
        ({ s with accessRecords := s.accessRecords ++
          [⟨newId, authUser.id, vid, "purchase", txh, now, "USDC", pay.amount, [], false⟩] }
          : Store).client vid = some video := hgot
    have hacc2 : checkUserVideoAccess
        ({ s with accessRecords := s.accessRecords ++
          [⟨newId, authUser.id, vid, "purchase", txh, now, "USDC", pay.amount, [], false⟩] }
          : Store).client now authUser.id vid = true := by
      unfold checkUserVideoAccess
      simp only [Store.client, List.filter_append, List.filter_cons, List.filter_nil,
        beq_self_eq_true, Bool.and_self, and_self, if_pos]
      simp [List.length_append]
    exact accessCheck_after_verification _ p env now newId2 authUser txh vid user video
      pay hid htx hvid hfind2 hwl hgot2 hact hok hacc2

theorem videoPurchase_idempotent_per_video_witness :
    verifyVideoPurchase c2Store okProvider c2Env sampleNow "id1"
        ⟨some ⟨"u1", "0xw"⟩, "0xh", "v1", "USDC"⟩ =
      (.granted "id1" (formatUnits 5000000 6) "USDC",
       { c2Store with accessRecords := c2Store.accessRecords ++
          [⟨"id1", "u1", "v1", "purchase", "0xh", sampleNow, "USDC",
            formatUnits 5000000 6, [], false⟩] })
    ∧ verifyVideoPurchase
        { c2Store with accessRecords := c2Store.accessRecords ++
          [⟨"id1", "u1", "v1", "purchase", "0xh", sampleNow, "USDC",
            formatUnits 5000000 6, [], false⟩] }
        okProvider c2Env sampleNow "id2" ⟨some ⟨"u1", "0xw"⟩, "0xh", "v1", "USDC"⟩ =
      (.alreadyHasAccess,
       { c2Store with accessRecords := c2Store.accessRecords ++
          [⟨"id1", "u1", "v1", "purchase", "0xh", sampleNow, "USDC",
            formatUnits 5000000 6, [], false⟩] }) :=
  videoPurchase_idempotent_per_video c2Store okProvider c2Env sampleNow "id1" "id2"
    ⟨"u1", "0xw"⟩ "0xh" "v1"
    ⟨"u1", "0xw", "user", "approved", none, ⟨⟨2026, 1, 1⟩, 0⟩⟩
    ⟨"v1", true, ⟨5, false⟩, ⟨"https-v1"⟩⟩
    ⟨true, formatUnits 5000000 6, "0xPayer", 100⟩
    rfl rfl rfl rfl rfl rfl rfl rfl (by decide)

/-! ### C5 — what the content access check actually is -/

/-- A `user_video_access` record exists for `(userId, videoId)`. -/
def entitlementExists (s : Store) (userId videoId : String) : Bool :=
  s.accessRecords.any (fun r => r.userId == userId && r.videoId == videoId)

/-- The subscription consulted by `checkUserVideoAccess`'s fallback: that
of the first user whose wallet address is the literal empty string (the
source calls `findUserByWallet("")`), active and not yet ended. -/
def emptyWalletSubscriptionActive (s : Store) (now : JsDate) : Bool :=
  match (s.users.filter (fun u => u.walletAddress == "")).head? with
  | some user =>
    match user.subscription with
    | some sub => sub.isActive && JsDate.ltb now sub.endDate
    | none => false
  | none => false

/-- The access combinator exactly as the spec claims it
(`whitelistApproved(principal) OR entitlementExists OR
(subscription.isActive AND now < subscription.endDate AND
item.isFreeWithSubscription)`) — stated from the spec's words, for
comparison with the code's `checkUserVideoAccess`. -/
def hasAccessSpecFormula (s : Store) (now : JsDate) (principal : User)
    (video : Video) : Bool :=
  principal.whitelistStatus == "approved"
  || entitlementExists s principal.id video.id
  || (match principal.subscription with
      | some sub =>
        sub.isActive && JsDate.ltb now sub.endDate &&
          video.pricing.isFreeWithSubscription
      | none => false)

theorem filter_length_pos_iff_any {α : Type} (l : List α) (p : α → Bool) :
    0 < (l.filter p).length ↔ l.any p = true := by
  induction l with
  | nil => simp
  | cons x xs ih =>
    rw [List.filter_cons, List.any_cons]
    cases hx : p x
    · simpa [hx] using ih
    · simp [hx]

/-- A whitelist-approved principal with no purchases and no
subscription. -/
def c5Alice : User := ⟨"u1", "0xa", "user", "approved", none, ⟨⟨2026, 1, 1⟩, 0⟩⟩

/-- An active video flagged free-with-subscription. -/
def c5Video : Video := ⟨"v1", true, ⟨5, true⟩, ⟨"https-v1"⟩⟩

/-- Store with only the approved principal and the video. -/
def c5Store : Store := ⟨[c5Alice], [c5Video], [], []⟩

/-- C5 counterexample.  The spec's claimed disjunction says whitelist
approval alone grants access, but the code's access check returns
`false` for an approved principal without purchases, and the
content-serving path denies the request: whitelist status plays no role
in `checkUserVideoAccess`. -/
theorem access_disjunction_false :
    hasAccessSpecFormula c5Store sampleNow c5Alice c5Video = true
    ∧ checkUserVideoAccess c5Store.client sampleNow c5Alice.id c5Video.id = false
    ∧ getVideoContent c5Store sampleNow "v1" (some ⟨"u1", "0xa"⟩) = .accessDenied := by
  refine ⟨by decide, by decide, by decide⟩

/-- C5 amended.  The access check used by the content-serving path is
`entitlementExists(userId, videoId) OR (the subscription of the user
found by the empty wallet-address string is active and not yet
ended)` — whitelist approval plays no role, the principal's own
subscription is not consulted, and the item's free-with-subscription
flag is ignored. -/
theorem checkUserVideoAccess_characterization (s : Store) (now : JsDate)
    (userId videoId : String) :
    checkUserVideoAccess s.client now userId videoId =
      (entitlementExists s userId videoId || emptyWalletSubscriptionActive s now) := by
  unfold checkUserVideoAccess findUserByWallet entitlementExists
    emptyWalletSubscriptionActive
  simp only [Store.client]
  by_cases h :
      0 < (s.accessRecords.filter
        (fun r => r.userId == userId && r.videoId == videoId)).length
  · rw [if_pos h, (filter_length_pos_iff_any _ _).mp h]
    rfl
  · rw [if_neg h]
    have hany : s.accessRecords.any
        (fun r => r.userId == userId && r.videoId == videoId) = false := by
      rw [← Bool.not_eq_true, ← filter_length_pos_iff_any]
      exact h
    rw [hany, Bool.false_or]

/-! ### C6 — subscription period: `startDate = now`,
`endDate = startDate + durationDays` calendar days, `isActive = true`,
replacing any prior subscription -/

/-- C6.  A successful subscription purchase stores
`{tierId, startDate := now, endDate, isActive := true}` where `endDate`
is exactly `startDate` advanced by the tier's `durationDays` calendar
days (the `nextDay` successor iterated, so month lengths and leap years
are traversed correctly) with the time of day preserved; the written
user record carries this subscription object regardless of — and in
place of — any subscription the user had before (no extension of
remaining days). -/
theorem subscriptionPurchase_period (s : Store) (p : ChainProvider) (env : Env)
    (now : JsDate) (authUser : AuthUser) (txh tierId : String)
    (user : User) (tier : SubscriptionTier) (pay : VerifyOk) (existing : User)
    (hid : (authUser.id == "") = false)
    (htx : (txh == "") = false) (htid : (tierId == "") = false)
    (hfind : findUserByWallet s.client authUser.walletAddress = some user)
    (hwl : user.whitelistStatus = "approved")
    (hgot : getSubscriptionTierById s.client tierId = some tier)
    (hact : tier.isActive = true)
    (hok : verifyUsdcPayment p txh tier.priceUsd env.storeWalletAddress = .ok pay)
    (hex : getUserById s.client authUser.id = some existing)
    (hvalid : validCivil now.civil) :
    verifySubscriptionPurchase s p env now ⟨some authUser, txh, tierId, "USDC"⟩ =
      (.subscribed
        ⟨tier.id, now, ⟨Nat.iterate nextDay tier.durationDays now.civil, now.tod⟩, true⟩
        pay.amount "USDC",
       { s with users := s.users ++
          [{ existing with
              subscription := some
                ⟨tier.id, now,
                 ⟨Nat.iterate nextDay tier.durationDays now.civil, now.tod⟩, true⟩,
              updatedAt := now }] }) := by
  have hsucc := verifyUsdcPayment_ok_success p txh tier.priceUsd
    env.storeWalletAddress pay hok
  obtain ⟨hm1, hm2, hd1, hd2⟩ := hvalid
  have hdate : JsDate.setDayOfMonth now (now.civil.day + tier.durationDays) =
      (⟨Nat.iterate nextDay tier.durationDays now.civil, now.tod⟩ : JsDate) := by
    unfold JsDate.setDayOfMonth
    rw [normDate_add now.civil.year now.civil.month now.civil.day tier.durationDays
      hm1 hm2 hd1 hd2]
  simp only [← hdate]
  simp [verifySubscriptionPurchase, hid, htx, htid, hfind, hwl, hgot, hact, hok,
    hsucc, updateUser, hex]

/-- Store for the subscription scenario: the approved user and a 30-day
5.00-USD tier. -/
def c6Store : Store :=
  ⟨[⟨"u1", "0xw", "user", "approved", none, ⟨⟨2026, 1, 1⟩, 0⟩⟩], [],
   [⟨"tier1", "Monthly", 5, 30, true⟩], []⟩

theorem subscriptionPurchase_period_witness :
    verifySubscriptionPurchase c6Store okProvider c2Env sampleNow
        ⟨some ⟨"u1", "0xw"⟩, "0xh", "tier1", "USDC"⟩ =
      (.subscribed
        ⟨"tier1", sampleNow, ⟨Nat.iterate nextDay 30 ⟨2026, 1, 15⟩, 43200000⟩, true⟩
        (formatUnits 5000000 6) "USDC",
       { c6Store with users := c6Store.users ++
          [{ (⟨"u1", "0xw", "user", "approved", none, ⟨⟨2026, 1, 1⟩, 0⟩⟩ : User) with
              subscription := some
                ⟨"tier1", sampleNow,
                 ⟨Nat.iterate nextDay 30 ⟨2026, 1, 15⟩, 43200000⟩, true⟩,
              updatedAt := sampleNow }] }) :=
  subscriptionPurchase_period c6Store okProvider c2Env sampleNow
    ⟨"u1", "0xw"⟩ "0xh" "tier1"
    ⟨"u1", "0xw", "user", "approved", none, ⟨⟨2026, 1, 1⟩, 0⟩⟩
    ⟨"tier1", "Monthly", 5, 30, true⟩
    ⟨true, formatUnits 5000000 6, "0xPayer", 100⟩
    ⟨"u1", "0xw", "user", "approved", none, ⟨⟨2026, 1, 1⟩, 0⟩⟩
    rfl rfl rfl rfl rfl rfl rfl rfl rfl (by decide)

/-! ### C10 — the access check ignores the requesting user's own
subscription -/

theorem filter_set_of_false {α : Type} (l : List α) (p : α → Bool) (i : Nat)
    (a : α) (hi : i < l.length)
    (hold : p (l.get ⟨i, hi⟩) = false) (hnew : p a = false) :
    (l.set i a).filter p = l.filter p := by
  induction l generalizing i with
  | nil => simp at hi
  | cons x xs ih =>
    cases i with
    | zero =>
      simp only [List.set]
      rw [List.filter_cons, List.filter_cons]
      simp only [List.get] at hold
      simp [hold, hnew]
    | succ n =>
      simp only [List.set]
      rw [List.filter_cons, List.filter_cons]
      have hn : n < xs.length := by simpa using hi
      rw [ih n hn (by simpa using hold)]

/-- C10.  For a user whose wallet address is not the empty string,
`checkUserVideoAccess` is entirely independent of that user's own
subscription state: overwriting the subscription of the user identified
by `userId` with any value leaves the result unchanged, because the
subscription fallback looks up a user by the literal empty wallet-address
string rather than the requester's wallet. -/
theorem accessCheck_ignores_own_subscription (s : Store) (now : JsDate)
    (i : Nat) (hi : i < s.users.length) (newSub : Option Subscription)
    (videoId : String)
    (hw : ((s.users.get ⟨i, hi⟩).walletAddress == "") = false)
    (hnorec : s.accessRecords.filter
      (fun r => r.userId == (s.users.get ⟨i, hi⟩).id && r.videoId == videoId) = []) :
    checkUserVideoAccess
        ({ s with users :=
            s.users.set i { s.users.get ⟨i, hi⟩ with subscription := newSub } }
          : Store).client
        now (s.users.get ⟨i, hi⟩).id videoId
      = checkUserVideoAccess s.client now (s.users.get ⟨i, hi⟩).id videoId := by
  unfold checkUserVideoAccess findUserByWallet
  simp only [Store.client]
  rw [filter_set_of_false s.users (fun u => u.walletAddress == "") i
    { s.users.get ⟨i, hi⟩ with subscription := newSub } hi hw hw]

/-- A user with a real wallet address. -/
def c10Base : User := ⟨"u1", "0xb", "user", "approved", none, ⟨⟨2026, 1, 1⟩, 0⟩⟩

/-- A year-long active subscription used to perturb `c10Base`. -/
def c10Sub : Subscription := ⟨"tier1", ⟨⟨2026, 1, 1⟩, 0⟩, ⟨⟨2027, 1, 1⟩, 0⟩, true⟩

/-- Store holding only `c10Base`, with no access records. -/
def c10Store : Store := ⟨[c10Base], [], [], []⟩

theorem accessCheck_ignores_own_subscription_witness :
    checkUserVideoAccess
        (Store.client ⟨[{ c10Base with subscription := some c10Sub }], [], [], []⟩)
        sampleNow "u1" "v1"
      = checkUserVideoAccess c10Store.client sampleNow "u1" "v1" :=
  accessCheck_ignores_own_subscription c10Store sampleNow 0 (by decide)
    (some c10Sub) "v1" (by decide) (by decide)

end TarotFlow
